import Mathlib

/-!
Shallow embedding of the med-point-portal client (React + Supabase) for
verification of its role-based authorization and appointment-status
workflow.  Definitions are translated from the TypeScript sources:

* `src/components/ProtectedRoute.tsx` (route guard),
* `src/contexts/AuthContext.tsx` (signUp, signOut, updateProfile,
  onAuthStateChange),
* `src/pages/Doctors.tsx`, `src/pages/Admin.tsx`,
  `src/pages/AdminDashboard.tsx` (doctor listings, verification),
* the appointment page and doctor dashboard (status updates and the
  actions each role is offered).

The remote store is modelled as explicit lists of rows; each Supabase
query/update call becomes a pure function on those lists.  A JavaScript
object literal passed to `update` becomes a record of `Option` fields
(an absent key is `none`).
-/

namespace MedPoint

/-- Role enum `user_role` from the generated database types. -/
inductive UserRole
  | patient
  | doctor
  | admin
deriving DecidableEq, Repr

/-- Status enum `appointment_status` from the generated database types. -/
inductive AppointmentStatus
  | scheduled
  | completed
  | cancelled
  | missed
deriving DecidableEq, Repr

/-- Row of the `profiles` table. -/
structure ProfileRow where
  id : String
  email : String
  first_name : String
  last_name : String
  phone : Option String
  role : UserRole
  is_verified : Bool
deriving DecidableEq, Repr

/-- Row of the `doctors` table. -/
structure DoctorRow where
  id : String
  qualification : String
  specialty : String
  experience_years : Nat
  is_verified : Bool
deriving DecidableEq, Repr

/-- Row of the `appointments` table. -/
structure Appointment where
  id : String
  doctor_id : String
  patient_id : String
  appointment_date : String
  duration_minutes : Nat
  reason : Option String
  notes : Option String
  status : AppointmentStatus
deriving DecidableEq, Repr

/-! ## Route guard (`ProtectedRoute.tsx`) -/

/-- The four possible render results of `ProtectedRoute`. -/
inductive RouteOutcome
  | loadingPlaceholder
  | redirectToAuth
  | redirectToFallback
  | renderProtectedView
deriving DecidableEq, Repr

/-- `ProtectedRoute` from `src/components/ProtectedRoute.tsx`: show a
skeleton while `isLoading`; redirect to the auth page when there is no
user; redirect to the fallback when `allowedRoles` is given, `userRole`
is non-null and the role is not in the list; otherwise render the
protected content.  (`src/unnamed/part_004` is the same guard with a
different fallback target; the decision structure is identical.) -/
def protectedRoute (isLoading : Bool) (user : Option String)
    (allowedRoles : Option (List UserRole)) (userRole : Option UserRole) :
    RouteOutcome :=
  if isLoading then
    RouteOutcome.loadingPlaceholder
  else if user.isNone then
    RouteOutcome.redirectToAuth
  else
    match allowedRoles, userRole with
    | some roles, some r =>
        if r ∈ roles then RouteOutcome.renderProtectedView
        else RouteOutcome.redirectToFallback
    | _, _ => RouteOutcome.renderProtectedView

/-! ## Admin dashboard pending counter (`AdminDashboard.tsx`) -/

/-- New value of `stats.pendingDoctors` after `handleVerifyDoctor` in
`src/pages/AdminDashboard.tsx`: verify clamps the decrement at zero
(`Math.max(0, stats.pendingDoctors - 1)`), revoke increments. -/
def pendingDoctorsAfterVerify (isVerified : Bool) (pending : Int) : Int :=
  if isVerified then max 0 (pending - 1) else pending + 1

/-! ## Appointment workflow (appointment page and doctor dashboard) -/

/-- Target statuses offered by the appointment-details dialog footer of
the appointment page for a viewer with role `userRole` when the selected
appointment has status `status`: a scheduled appointment offers Cancel
to every role and Mark as Completed to doctor and admin only; a
cancelled appointment offers Reschedule to a patient only. -/
def appointmentDialogActions (userRole : UserRole) (status : AppointmentStatus) :
    List AppointmentStatus :=
  (if status = AppointmentStatus.scheduled then
      [AppointmentStatus.cancelled] ++
        (if userRole = UserRole.doctor ∨ userRole = UserRole.admin then
          [AppointmentStatus.completed]
        else [])
    else []) ++
  (if status = AppointmentStatus.cancelled ∧ userRole = UserRole.patient then
      [AppointmentStatus.scheduled]
    else [])

/-- Target statuses offered per row of the doctor dashboard's daily
schedule: Mark Completed, shown only when the row's status is
scheduled. -/
def doctorDailyScheduleActions (status : AppointmentStatus) : List AppointmentStatus :=
  if status = AppointmentStatus.scheduled then [AppointmentStatus.completed] else []

/-- Target statuses offered per row of the doctor dashboard's upcoming
list: the Cancel button is rendered on every listed row. -/
def doctorUpcomingListActions : List AppointmentStatus :=
  [AppointmentStatus.cancelled]

/-- Filter of the upcoming-appointments query in `fetchDoctorData` of
the doctor dashboard, which selects rows with status equal to
scheduled: a row reaches the upcoming list only when its status is
scheduled. -/
def upcomingQueryKeeps (a : Appointment) : Bool :=
  decide (a.status = AppointmentStatus.scheduled)

/-- Insert payload built by `handleSubmit` of the appointment page. -/
structure AppointmentInsert where
  doctor_id : String
  patient_id : String
  appointment_date : String
  duration_minutes : Nat
  reason : String
  notes : String
  status : AppointmentStatus
deriving DecidableEq, Repr

/-- `handleSubmit` of the appointment page: an admin books for the
selected patient, anyone else for themselves; the inserted status is
always scheduled. -/
def handleSubmitPayload (userRole : UserRole)
    (formPatientId currentUserId doctorId apptDate : String)
    (duration : Nat) (reason notes : String) : AppointmentInsert :=
  { doctor_id := doctorId
    patient_id := if userRole = UserRole.admin then formPatientId else currentUserId
    appointment_date := apptDate
    duration_minutes := duration
    reason := reason
    notes := notes
    status := AppointmentStatus.scheduled }

/-- An in-app action by role `r` that would move appointment `a` to
status `target`: one of the appointment-dialog buttons, or — doctor
dashboard, hence doctors only — Mark Completed in the daily schedule or
Cancel on a row of the upcoming list (which holds scheduled rows only,
by the query filter). -/
def inAppStatusAction (r : UserRole) (a : Appointment) (target : AppointmentStatus) : Prop :=
  target ∈ appointmentDialogActions r a.status ∨
  (r = UserRole.doctor ∧ target ∈ doctorDailyScheduleActions a.status) ∨
  (r = UserRole.doctor ∧ upcomingQueryKeeps a = true ∧ target ∈ doctorUpcomingListActions)

/-- `updateAppointmentStatus` of the appointment page: an update call
that sets only the status column, restricted to the rows whose id
column equals the given id. -/
def updateAppointmentStatus (db : List Appointment) (id : String)
    (status : AppointmentStatus) : List Appointment :=
  db.map (fun a => if a.id = id then { a with status := status } else a)

/-- `handleUpdateAppointmentStatus` of the doctor dashboard performs
the identical status-only update restricted to the matching id. -/
def handleUpdateAppointmentStatus (db : List Appointment) (id : String)
    (status : AppointmentStatus) : List Appointment :=
  db.map (fun a => if a.id = id then { a with status := status } else a)

/-- Concrete completed appointment used to instantiate theorems. -/
def sampleCompletedAppt : Appointment :=
  { id := "a-1", doctor_id := "d-1", patient_id := "p-1",
    appointment_date := "2025-01-01T09:00:00Z", duration_minutes := 30,
    reason := none, notes := none, status := AppointmentStatus.completed }

/-- Concrete scheduled appointment used to instantiate theorems. -/
def sampleScheduledAppt : Appointment :=
  { id := "a-2", doctor_id := "d-1", patient_id := "p-2",
    appointment_date := "2025-01-02T10:00:00Z", duration_minutes := 45,
    reason := some "check-up", notes := none,
    status := AppointmentStatus.scheduled }

/-! ## Doctor listings (`Doctors.tsx`, appointment page, `Admin.tsx`) -/

/-- `fetchDoctors` of `src/pages/Doctors.tsx`, the doctor-directory
page: selects doctors rows with the verification flag equal to true. -/
def doctorsPageQuery (db : List DoctorRow) : List DoctorRow :=
  db.filter (fun d => d.is_verified)

/-- `fetchDoctors` of the appointment page, which fills the doctor
dropdown of the booking dialog: selects all doctors rows, with no
verification filter. -/
def appointmentPageDoctorsQuery (db : List DoctorRow) : List DoctorRow :=
  db

/-- `fetchPendingDoctors` of `src/pages/Admin.tsx`: selects doctors
rows with the verification flag equal to false. -/
def pendingDoctorsQuery (db : List DoctorRow) : List DoctorRow :=
  db.filter (fun d => !d.is_verified)

/-- Concrete unverified doctor row used to instantiate theorems. -/
def unverifiedDoc : DoctorRow :=
  { id := "doc-1", qualification := "MBBS", specialty := "cardiology",
    experience_years := 5, is_verified := false }

/-- Concrete verified doctor row used to instantiate theorems. -/
def verifiedDoc : DoctorRow :=
  { id := "doc-2", qualification := "MD", specialty := "neurology",
    experience_years := 8, is_verified := true }

/-! ## Sign-up (`AuthContext.tsx`) -/

/-- JavaScript truthiness of an optional string argument: undefined and
the empty string are falsy. -/
def truthyOptStr : Option String → Bool
  | none => false
  | some s => !(s == "")

/-- Arguments of `signUp` in `src/contexts/AuthContext.tsx`. -/
structure SignUpArgs where
  email : String
  password : String
  firstName : String
  lastName : String
  role : UserRole
  qualification : Option String
  specialty : Option String
  experienceYears : Option Nat
deriving DecidableEq, Repr

/-- Outcomes of the remote calls `signUp` performs, in program order:
whether the identity-provider sign-up returns an error, whether it
returns a user object, that user's id, and whether the profiles upsert
and the doctors insert resolve with a store error. -/
structure SignUpRemote where
  authSignUpFails : Bool
  authUserReturned : Bool
  userId : String
  profileUpsertFails : Bool
  doctorInsertFails : Bool
deriving DecidableEq, Repr

/-- Object literal upserted into `profiles` by `signUp`. -/
structure ProfileUpsertPayload where
  id : String
  email : String
  first_name : String
  last_name : String
  role : UserRole
  is_verified : Bool
deriving DecidableEq, Repr

/-- Object literal inserted into `doctors` by `signUp`. -/
structure DoctorInsertPayload where
  id : String
  qualification : String
  specialty : String
  experience_years : Nat
  is_verified : Bool
deriving DecidableEq, Repr

/-- Observable outcome of a `signUp` call: the rows that actually land
in the store, whether the returned promise rejects (the thrown error
reaching the caller), which toast is shown, and whether the created
identity is ever deleted again (no code path does so). -/
structure SignUpOutcome where
  profileWritten : Option ProfileUpsertPayload
  doctorWritten : Option DoctorInsertPayload
  threwToCaller : Bool
  successToastShown : Bool
  errorToastShown : Bool
  identityDeleted : Bool
deriving DecidableEq, Repr

/-- `signUp` from `src/contexts/AuthContext.tsx`.  An identity-provider
error is thrown, toasted and re-thrown to the caller.  Otherwise, when
a user object is returned, a profiles row is upserted with the
verification flag set to the role not being doctor, and a doctors row
is inserted (verification flag false) only when the role is doctor and
the qualification, specialty and experience-years arguments are all
supplied (truthy, respectively not undefined).  The results of the
upsert and the insert are awaited but never destructured: the store
client resolves failures into an error value instead of rejecting, so
a store failure cannot reach the catch block, and the success toast is
shown regardless.  No code path deletes the created identity. -/
def signUp (args : SignUpArgs) (remote : SignUpRemote) : SignUpOutcome :=
  if remote.authSignUpFails then
    { profileWritten := none, doctorWritten := none, threwToCaller := true,
      successToastShown := false, errorToastShown := true, identityDeleted := false }
  else
    { profileWritten :=
        if remote.authUserReturned && !remote.profileUpsertFails then
          some { id := remote.userId, email := args.email,
                 first_name := args.firstName, last_name := args.lastName,
                 role := args.role,
                 is_verified := decide (args.role ≠ UserRole.doctor) }
        else none
      doctorWritten :=
        if remote.authUserReturned && decide (args.role = UserRole.doctor)
            && truthyOptStr args.qualification && truthyOptStr args.specialty
            && args.experienceYears.isSome && !remote.doctorInsertFails then
          some { id := remote.userId,
                 qualification := args.qualification.getD "",
                 specialty := args.specialty.getD "",
                 experience_years := args.experienceYears.getD 0,
                 is_verified := false }
        else none
      threwToCaller := false
      successToastShown := true
      errorToastShown := false
      identityDeleted := false }

/-- Concrete patient sign-up arguments. -/
def patientArgs : SignUpArgs :=
  { email := "a@b.com", password := "secret1", firstName := "Pat",
    lastName := "Lee", role := UserRole.patient, qualification := none,
    specialty := none, experienceYears := none }

/-- Concrete doctor sign-up arguments with the qualification argument
left undefined. -/
def doctorArgsNoQualification : SignUpArgs :=
  { email := "doc@x.com", password := "secret1", firstName := "Dee",
    lastName := "Roe", role := UserRole.doctor, qualification := none,
    specialty := some "cardiology", experienceYears := some 5 }

/-- Concrete doctor sign-up arguments with every doctor field
supplied. -/
def doctorArgsFull : SignUpArgs :=
  { email := "doc2@x.com", password := "secret1", firstName := "Em",
    lastName := "Kay", role := UserRole.doctor, qualification := some "MBBS",
    specialty := some "cardiology", experienceYears := some 5 }

/-- Remote outcomes in which every call succeeds. -/
def remoteAllOk : SignUpRemote :=
  { authSignUpFails := false, authUserReturned := true, userId := "u-1",
    profileUpsertFails := false, doctorInsertFails := false }

/-- Remote outcomes in which the profiles upsert resolves with a store
error after the identity was created. -/
def remoteUpsertFail : SignUpRemote :=
  { authSignUpFails := false, authUserReturned := true, userId := "u-2",
    profileUpsertFails := true, doctorInsertFails := false }

/-! ## Profile update (`AuthContext.tsx`, `Settings.tsx`) -/

/-- JavaScript object passed to the profiles update call; an absent key
is `none` and a present key overwrites that column. -/
structure ProfileUpdatePayload where
  first_name : Option String := none
  last_name : Option String := none
  phone : Option String := none
  email : Option String := none
  role : Option UserRole := none
deriving DecidableEq, Repr

/-- Effect of the store's update call on a single profiles row: every
column named in the payload is overwritten, every other column is kept. -/
def applyProfileUpdate (p : ProfileRow) (u : ProfileUpdatePayload) : ProfileRow :=
  { p with
    first_name := u.first_name.getD p.first_name
    last_name := u.last_name.getD p.last_name
    phone := (u.phone.map some).getD p.phone
    email := u.email.getD p.email
    role := u.role.getD p.role }

/-- `updateProfile` from `src/contexts/AuthContext.tsx`: the payload is
forwarded verbatim to an update call restricted to the row whose id is
the current user's id. -/
def updateProfile (db : List ProfileRow) (uid : String)
    (u : ProfileUpdatePayload) : List ProfileRow :=
  db.map (fun p => if p.id = uid then applyProfileUpdate p u else p)

/-- Payload built by `handleProfileUpdate` in `src/pages/Settings.tsx`:
only the first-name, last-name and phone keys are ever set. -/
def handleProfileUpdatePayload (firstName lastName phone : String) :
    ProfileUpdatePayload :=
  { first_name := some firstName, last_name := some lastName,
    phone := some phone }

/-- Concrete patient profile row used to instantiate theorems. -/
def samplePatientProfile : ProfileRow :=
  { id := "u-1", email := "a@b.com", first_name := "Pat", last_name := "Lee",
    phone := none, role := UserRole.patient, is_verified := true }

/-! ## Sign-out and local auth state (`AuthContext.tsx`) -/

/-- Session object held by the auth provider; only the contained user
id matters to the embedded state. -/
structure SessionObj where
  userId : String
deriving DecidableEq, Repr

/-- The four locally cached pieces of auth state of `AuthProvider`. -/
structure AuthLocalState where
  session : Option SessionObj
  user : Option String
  userRole : Option UserRole
  profile : Option ProfileRow
deriving DecidableEq, Repr

/-- The `onAuthStateChange` listener of `AuthProvider`: it stores the
new session and its user; with a live session the profile fetch is only
scheduled (role and profile unchanged until it lands), with a null
session the cached profile and role are cleared. -/
def onAuthStateChange (st : AuthLocalState) (currentSession : Option SessionObj) :
    AuthLocalState :=
  match currentSession with
  | some s => { st with session := some s, user := some s.userId }
  | none => { session := none, user := none, userRole := none, profile := none }

/-- `signOut` from `src/contexts/AuthContext.tsx` together with the
store client's sign-out contract: on success the client removes the
stored session and notifies the listener with a null session, which
clears the cached state; on failure the client resolves with an error
value, emits no session-change event, and the function body itself
touches no state — its catch clause only shows a toast and does not
re-throw, so the returned Bool (did the call throw to the caller) is
always false. -/
def signOutCall (st : AuthLocalState) (remoteFails : Bool) :
    AuthLocalState × Bool :=
  (if remoteFails then st else onAuthStateChange st none, false)

/-- Concrete signed-in local auth state used to instantiate theorems. -/
def sampleAuthState : AuthLocalState :=
  { session := some { userId := "u-1" }, user := some "u-1",
    userRole := some UserRole.patient, profile := some samplePatientProfile }

/-! ## Theorems -/

/-- Claim C1, counterexample: with loading finished, an authenticated
user whose role is still null (profile fetch pending) and a view
permitting only admins, the guard renders the protected view — not the
loading placeholder the claim requires for an unknown role. -/
theorem protectedRoute_null_role_renders_counterexample :
    protectedRoute false (some "user-1") (some [UserRole.admin]) none =
      RouteOutcome.renderProtectedView ∧
    RouteOutcome.renderProtectedView ≠ RouteOutcome.loadingPlaceholder := by
  constructor
  · rfl
  · intro h
    exact RouteOutcome.noConfusion h

/-- Claim C1, amended: while `isLoading` the guard shows the loading
placeholder; afterwards an unauthenticated request is redirected to the
auth page; an authenticated user with a known role is rendered the view
iff the role is in the permitted list; but an authenticated user whose
role is still null is rendered the view unconditionally — the null role
is treated as allowed, not as loading. -/
theorem protectedRoute_access_decision :
    (∀ (u : String) (roles : List UserRole) (r : UserRole),
      protectedRoute false (some u) (some roles) (some r) =
        RouteOutcome.renderProtectedView ↔ r ∈ roles) ∧
    (∀ (u : String) (roles : List UserRole),
      protectedRoute false (some u) (some roles) none =
        RouteOutcome.renderProtectedView) ∧
    (∀ (user : Option String) (allowed : Option (List UserRole))
        (userRole : Option UserRole),
      protectedRoute true user allowed userRole =
        RouteOutcome.loadingPlaceholder) ∧
    (∀ (allowed : Option (List UserRole)) (userRole : Option UserRole),
      protectedRoute false none allowed userRole =
        RouteOutcome.redirectToAuth) := by
  refine ⟨?_, ?_, ?_, ?_⟩
  · intro u roles r
    by_cases h : r ∈ roles
    · simp [protectedRoute, h]
    · simp [protectedRoute, h]
  · intro u roles
    simp [protectedRoute]
  · intro user allowed userRole
    simp [protectedRoute]
  · intro allowed userRole
    cases allowed <;> cases userRole <;> simp [protectedRoute]

/-- Claim C10: the pending-doctors counter update of `handleVerifyDoctor`
never produces a negative value from a non-negative one; a verify action
is a decrement clamped at zero and a revoke action is an increment. -/
theorem pendingDoctors_counter_nonneg (n : Int) (h : 0 ≤ n) :
    (∀ b : Bool, 0 ≤ pendingDoctorsAfterVerify b n) ∧
    pendingDoctorsAfterVerify true n = max 0 (n - 1) ∧
    pendingDoctorsAfterVerify false n = n + 1 := by
  refine ⟨?_, rfl, rfl⟩
  intro b
  cases b
  · simp [pendingDoctorsAfterVerify]
    omega
  · simp [pendingDoctorsAfterVerify]

/-- Claim C10, witness: the counter update applied at the concrete
value 0 stays non-negative, clamps the verify decrement and increments
on revoke. -/
theorem pendingDoctors_counter_nonneg_witness :
    (∀ b : Bool, 0 ≤ pendingDoctorsAfterVerify b 0) ∧
    pendingDoctorsAfterVerify true 0 = max 0 (0 - 1) ∧
    pendingDoctorsAfterVerify false 0 = 0 + 1 :=
  pendingDoctors_counter_nonneg 0 (by decide)

/-- Claim C2: the in-app status actions are exactly scheduled to
completed (doctor or admin only), scheduled to cancelled (every role),
and cancelled to scheduled (patient only); no action leaves completed
or missed, no action targets missed, and every newly created
appointment is inserted with status scheduled. -/
theorem inApp_status_transitions :
    (∀ (r : UserRole) (a : Appointment) (t : AppointmentStatus),
      inAppStatusAction r a t ↔
        ((a.status = AppointmentStatus.scheduled ∧ t = AppointmentStatus.completed ∧
            (r = UserRole.doctor ∨ r = UserRole.admin)) ∨
         (a.status = AppointmentStatus.scheduled ∧ t = AppointmentStatus.cancelled) ∨
         (a.status = AppointmentStatus.cancelled ∧ t = AppointmentStatus.scheduled ∧
            r = UserRole.patient))) ∧
    (∀ (r : UserRole) (a : Appointment) (t : AppointmentStatus),
      a.status = AppointmentStatus.completed ∨ a.status = AppointmentStatus.missed →
        ¬ inAppStatusAction r a t) ∧
    (∀ (r : UserRole) (a : Appointment),
      ¬ inAppStatusAction r a AppointmentStatus.missed) ∧
    (∀ (userRole : UserRole) (fp cu d ad : String) (dur : Nat) (re no : String),
      (handleSubmitPayload userRole fp cu d ad dur re no).status =
        AppointmentStatus.scheduled) := by
  have key : ∀ (r : UserRole) (a : Appointment) (t : AppointmentStatus),
      inAppStatusAction r a t ↔
        ((a.status = AppointmentStatus.scheduled ∧ t = AppointmentStatus.completed ∧
            (r = UserRole.doctor ∨ r = UserRole.admin)) ∨
         (a.status = AppointmentStatus.scheduled ∧ t = AppointmentStatus.cancelled) ∨
         (a.status = AppointmentStatus.cancelled ∧ t = AppointmentStatus.scheduled ∧
            r = UserRole.patient)) := by
    rintro r ⟨aid, did, pid, ad, dm, re, no, st⟩ t
    cases st <;> cases r <;> cases t <;>
      simp [inAppStatusAction, appointmentDialogActions, doctorDailyScheduleActions,
        doctorUpcomingListActions, upcomingQueryKeeps]
  refine ⟨key, ?_, ?_, ?_⟩
  · intro r a t h hact
    rcases (key r a t).mp hact with h' | h' | h' <;>
      rcases h with h2 | h2 <;> rw [h'.1] at h2 <;> cases h2
  · intro r a hact
    rcases (key r a AppointmentStatus.missed).mp hact with h' | h' | h'
    · cases h'.2.1
    · cases h'.2
    · cases h'.2.1
  · intro userRole fp cu d ad dur re no
    rfl

/-- Claim C2, witness: a doctor is offered no action on a completed
appointment. -/
theorem inApp_status_transitions_witness :
    ¬ inAppStatusAction UserRole.doctor sampleCompletedAppt AppointmentStatus.scheduled :=
  inApp_status_transitions.2.1 UserRole.doctor sampleCompletedAppt
    AppointmentStatus.scheduled (Or.inl rfl)

/-- Claim C8: the status-update call of the appointment page writes
only the status column of the rows whose id matches, and leaves every
other row unchanged; the doctor dashboard's handler performs the same
write. -/
theorem updateAppointmentStatus_frame (db : List Appointment) (i : String)
    (s : AppointmentStatus) (j : Nat) (a : Appointment)
    (h : db[j]? = some a) :
    handleUpdateAppointmentStatus db i s = updateAppointmentStatus db i s ∧
    (updateAppointmentStatus db i s).length = db.length ∧
    ∃ a', (updateAppointmentStatus db i s)[j]? = some a' ∧
      a'.id = a.id ∧ a'.doctor_id = a.doctor_id ∧ a'.patient_id = a.patient_id ∧
      a'.appointment_date = a.appointment_date ∧
      a'.duration_minutes = a.duration_minutes ∧
      a'.reason = a.reason ∧ a'.notes = a.notes ∧
      a'.status = (if a.id = i then s else a.status) ∧
      (a.id ≠ i → a' = a) := by
  refine ⟨rfl, by simp [updateAppointmentStatus], ?_⟩
  refine ⟨if a.id = i then { a with status := s } else a, ?_, ?_⟩
  · simp [updateAppointmentStatus, h]
  · by_cases hid : a.id = i <;> simp [hid]

/-- Claim C8, witness: updating appointment a-1 to completed in a
two-row table leaves the row a-2 untouched. -/
theorem updateAppointmentStatus_frame_witness :
    handleUpdateAppointmentStatus [sampleCompletedAppt, sampleScheduledAppt] "a-1"
        AppointmentStatus.completed =
      updateAppointmentStatus [sampleCompletedAppt, sampleScheduledAppt] "a-1"
        AppointmentStatus.completed ∧
    (updateAppointmentStatus [sampleCompletedAppt, sampleScheduledAppt] "a-1"
        AppointmentStatus.completed).length =
      ([sampleCompletedAppt, sampleScheduledAppt] : List Appointment).length ∧
    ∃ a', (updateAppointmentStatus [sampleCompletedAppt, sampleScheduledAppt] "a-1"
        AppointmentStatus.completed)[1]? = some a' ∧
      a'.id = sampleScheduledAppt.id ∧
      a'.doctor_id = sampleScheduledAppt.doctor_id ∧
      a'.patient_id = sampleScheduledAppt.patient_id ∧
      a'.appointment_date = sampleScheduledAppt.appointment_date ∧
      a'.duration_minutes = sampleScheduledAppt.duration_minutes ∧
      a'.reason = sampleScheduledAppt.reason ∧
      a'.notes = sampleScheduledAppt.notes ∧
      a'.status = (if sampleScheduledAppt.id = "a-1" then AppointmentStatus.completed
        else sampleScheduledAppt.status) ∧
      (sampleScheduledAppt.id ≠ "a-1" → a' = sampleScheduledAppt) :=
  updateAppointmentStatus_frame [sampleCompletedAppt, sampleScheduledAppt] "a-1"
    AppointmentStatus.completed 1 sampleScheduledAppt rfl

/-- Claim C3, counterexample: an unverified doctor row is returned by
the appointment page's doctor query — the dropdown of the booking
dialog, a listing rendered for patients — because that query applies no
verification filter. -/
theorem unverified_doctor_in_booking_list :
    unverifiedDoc ∈ appointmentPageDoctorsQuery [unverifiedDoc, verifiedDoc] ∧
    unverifiedDoc.is_verified = false := by
  constructor
  · simp [appointmentPageDoctorsQuery]
  · rfl

/-- Claim C3, amended: the dedicated doctor-directory page lists only
verified doctors and the admin pending list only unverified ones — an
unverified doctor is excluded from the directory and shown in the
pending list — but the appointment page's booking dropdown is not
covered by the gate. -/
theorem doctor_directory_visibility (db : List DoctorRow) (d : DoctorRow) :
    (d ∈ doctorsPageQuery db → d.is_verified = true) ∧
    (d ∈ pendingDoctorsQuery db → d.is_verified = false) ∧
    (d ∈ db → d.is_verified = false →
      d ∉ doctorsPageQuery db ∧ d ∈ pendingDoctorsQuery db) := by
  refine ⟨?_, ?_, ?_⟩
  · intro hm
    exact (List.mem_filter.mp hm).2
  · intro hm
    have h := (List.mem_filter.mp hm).2
    simpa using h
  · intro hdb hfalse
    constructor
    · intro hm
      have h := (List.mem_filter.mp hm).2
      rw [hfalse] at h
      cases h
    · exact List.mem_filter.mpr ⟨hdb, by simp [hfalse]⟩

/-- Claim C3, witness: in a concrete two-row doctors table the verified
row passes the directory filter and the unverified row is excluded from
the directory and listed as pending. -/
theorem doctor_directory_visibility_witness :
    verifiedDoc.is_verified = true ∧
    (unverifiedDoc ∉ doctorsPageQuery [unverifiedDoc, verifiedDoc] ∧
     unverifiedDoc ∈ pendingDoctorsQuery [unverifiedDoc, verifiedDoc]) := by
  constructor
  · exact (doctor_directory_visibility [unverifiedDoc, verifiedDoc] verifiedDoc).1
      (by simp [doctorsPageQuery, verifiedDoc])
  · exact (doctor_directory_visibility [unverifiedDoc, verifiedDoc] unverifiedDoc).2.2
      (by simp) rfl

/-- Claim C4, counterexample: a sign-up call with role doctor whose
qualification argument is undefined completes without error (success
toast shown, nothing thrown) yet inserts no doctors row. -/
theorem signUp_doctor_without_details_counterexample :
    (signUp doctorArgsNoQualification remoteAllOk).threwToCaller = false ∧
    (signUp doctorArgsNoQualification remoteAllOk).successToastShown = true ∧
    (signUp doctorArgsNoQualification remoteAllOk).doctorWritten = none ∧
    doctorArgsNoQualification.role = UserRole.doctor :=
  ⟨rfl, rfl, rfl, rfl⟩

/-- Claim C4, amended: on a successful sign-up with all store writes
succeeding, a non-doctor role writes exactly one profile row with the
verification flag true and no doctors row; a doctor role writes a
profile row with the verification flag false, and additionally a
doctors row with the verification flag false provided the
qualification, specialty and experience-years arguments are all
supplied. -/
theorem signUp_row_effects (args : SignUpArgs) (remote : SignUpRemote)
    (h1 : remote.authSignUpFails = false) (h2 : remote.authUserReturned = true)
    (h3 : remote.profileUpsertFails = false) (h4 : remote.doctorInsertFails = false) :
    (args.role ≠ UserRole.doctor →
      (signUp args remote).profileWritten =
        some { id := remote.userId, email := args.email,
               first_name := args.firstName, last_name := args.lastName,
               role := args.role, is_verified := true } ∧
      (signUp args remote).doctorWritten = none) ∧
    (args.role = UserRole.doctor →
      (signUp args remote).profileWritten =
        some { id := remote.userId, email := args.email,
               first_name := args.firstName, last_name := args.lastName,
               role := args.role, is_verified := false } ∧
      (truthyOptStr args.qualification = true → truthyOptStr args.specialty = true →
        args.experienceYears.isSome = true →
        (signUp args remote).doctorWritten =
          some { id := remote.userId,
                 qualification := args.qualification.getD "",
                 specialty := args.specialty.getD "",
                 experience_years := args.experienceYears.getD 0,
                 is_verified := false })) := by
  constructor
  · intro hrole
    constructor
    · simp [signUp, h1, h2, h3, hrole]
    · simp [signUp, h1, hrole]
  · intro hrole
    constructor
    · simp [signUp, h1, h2, h3, hrole]
    · intro hq hs he
      simp [signUp, h1, h2, h4, hrole, hq, hs, he]

/-- Claim C4, witness: a concrete patient sign-up with every remote
call succeeding writes the expected verified profile row and no
doctors row. -/
theorem signUp_row_effects_witness :
    (signUp patientArgs remoteAllOk).profileWritten =
      some { id := remoteAllOk.userId, email := patientArgs.email,
             first_name := patientArgs.firstName, last_name := patientArgs.lastName,
             role := patientArgs.role, is_verified := true } ∧
    (signUp patientArgs remoteAllOk).doctorWritten = none :=
  (signUp_row_effects patientArgs remoteAllOk rfl rfl rfl rfl).1 (by decide)

/-- Claim C9: a doctor sign-up missing any of qualification, specialty
or experience years still writes an unverified profile row, inserts no
doctors row, reports success, and an id absent from the doctors table
never appears in the admin pending-verification query. -/
theorem signUp_doctor_missing_details (args : SignUpArgs) (remote : SignUpRemote)
    (hrole : args.role = UserRole.doctor)
    (hmiss : args.qualification = none ∨ args.specialty = none ∨
      args.experienceYears = none)
    (h1 : remote.authSignUpFails = false) (h2 : remote.authUserReturned = true)
    (h3 : remote.profileUpsertFails = false) :
    (∃ p, (signUp args remote).profileWritten = some p ∧
      p.is_verified = false ∧ p.role = UserRole.doctor) ∧
    (signUp args remote).doctorWritten = none ∧
    (signUp args remote).threwToCaller = false ∧
    (signUp args remote).successToastShown = true ∧
    (∀ db : List DoctorRow, (∀ d ∈ db, d.id ≠ remote.userId) →
      ∀ d ∈ pendingDoctorsQuery db, d.id ≠ remote.userId) := by
  refine ⟨?_, ?_, ?_, ?_, ?_⟩
  · have hp : (signUp args remote).profileWritten =
        some { id := remote.userId, email := args.email,
               first_name := args.firstName, last_name := args.lastName,
               role := args.role, is_verified := false } := by
      simp [signUp, h1, h2, h3, hrole]
    exact ⟨_, hp, rfl, hrole⟩
  · rcases hmiss with h | h | h <;>
      simp [signUp, h1, hrole, h, truthyOptStr]
  · simp [signUp, h1]
  · simp [signUp, h1]
  · intro db hdb d hd
    exact hdb d (List.mem_filter.mp hd).1

/-- Claim C9, witness: the concrete doctor sign-up with an undefined
qualification writes an unverified profile, no doctors row, reports
success, and its id stays out of any pending list not containing it. -/
theorem signUp_doctor_missing_details_witness :
    (∃ p, (signUp doctorArgsNoQualification remoteAllOk).profileWritten = some p ∧
      p.is_verified = false ∧ p.role = UserRole.doctor) ∧
    (signUp doctorArgsNoQualification remoteAllOk).doctorWritten = none ∧
    (signUp doctorArgsNoQualification remoteAllOk).threwToCaller = false ∧
    (signUp doctorArgsNoQualification remoteAllOk).successToastShown = true ∧
    (∀ db : List DoctorRow, (∀ d ∈ db, d.id ≠ remoteAllOk.userId) →
      ∀ d ∈ pendingDoctorsQuery db, d.id ≠ remoteAllOk.userId) :=
  signUp_doctor_missing_details doctorArgsNoQualification remoteAllOk rfl
    (Or.inl rfl) rfl rfl rfl

/-- Claim C5, counterexample: when the profiles upsert fails after the
identity was created, the sign-up call neither throws nor shows the
error toast — it shows the success toast — so the failure is not
surfaced to the caller, contrary to the claim. -/
theorem signUp_upsert_failure_not_surfaced :
    (signUp patientArgs remoteUpsertFail).profileWritten = none ∧
    (signUp patientArgs remoteUpsertFail).threwToCaller = false ∧
    (signUp patientArgs remoteUpsertFail).errorToastShown = false ∧
    (signUp patientArgs remoteUpsertFail).successToastShown = true :=
  ⟨rfl, rfl, rfl, rfl⟩

/-- Claim C5, amended: if the profiles upsert or the doctors insert
fails after identity creation succeeded, the failure is silently
swallowed — the call resolves without error and shows the success
toast — and the created identity is not rolled back; a failed upsert
also leaves no profile row. -/
theorem signUp_store_failure_swallowed (args : SignUpArgs) (remote : SignUpRemote)
    (h1 : remote.authSignUpFails = false)
    (_hfail : remote.profileUpsertFails = true ∨ remote.doctorInsertFails = true) :
    (signUp args remote).threwToCaller = false ∧
    (signUp args remote).successToastShown = true ∧
    (signUp args remote).errorToastShown = false ∧
    (signUp args remote).identityDeleted = false ∧
    (remote.profileUpsertFails = true →
      (signUp args remote).profileWritten = none) := by
  refine ⟨?_, ?_, ?_, ?_, ?_⟩
  · simp [signUp, h1]
  · simp [signUp, h1]
  · simp [signUp, h1]
  · simp [signUp, h1]
  · intro hp
    simp [signUp, h1, hp]

/-- Claim C5, witness: the swallowing behaviour at the concrete
patient sign-up whose profiles upsert fails. -/
theorem signUp_store_failure_swallowed_witness :
    (signUp patientArgs remoteUpsertFail).threwToCaller = false ∧
    (signUp patientArgs remoteUpsertFail).successToastShown = true ∧
    (signUp patientArgs remoteUpsertFail).errorToastShown = false ∧
    (signUp patientArgs remoteUpsertFail).identityDeleted = false ∧
    (remoteUpsertFail.profileUpsertFails = true →
      (signUp patientArgs remoteUpsertFail).profileWritten = none) :=
  signUp_store_failure_swallowed patientArgs remoteUpsertFail rfl (Or.inl rfl)

/-- Roles and emails of every row survive an update made through the
Settings form payload, which sets only the first-name, last-name and
phone keys. -/
theorem map_role_email_updateProfile (db : List ProfileRow) (uid fn ln ph : String) :
    (updateProfile db uid (handleProfileUpdatePayload fn ln ph)).map
        (fun q => (q.role, q.email)) = db.map (fun q => (q.role, q.email)) := by
  induction db with
  | nil => rfl
  | cons q qs ih =>
      simp only [updateProfile, List.map_cons] at ih ⊢
      rw [ih]
      by_cases h : q.id = uid <;>
        simp [h, applyProfileUpdate, handleProfileUpdatePayload]

/-- Claim C6, counterexample: `updateProfile` forwards its payload
verbatim, so a payload carrying a role key rewrites the role column of
the current user's row — from patient to admin here — contradicting
the claim that no payload can change the role. -/
theorem updateProfile_role_payload_counterexample :
    (updateProfile [samplePatientProfile] "u-1"
        { role := some UserRole.admin }).map (fun p => p.role) =
      [UserRole.admin] ∧
    samplePatientProfile.role = UserRole.patient := by
  constructor
  · simp [updateProfile, applyProfileUpdate, samplePatientProfile]
  · rfl

/-- Claim C6, amended: the update leaves role and email unchanged
exactly when the payload carries no role and no email key; the payload
built by the Settings form sets only first name, last name and phone,
so every update issued through the UI preserves the role and email of
every row. -/
theorem updateProfile_frame (p : ProfileRow) (u : ProfileUpdatePayload)
    (db : List ProfileRow) (uid fn ln ph : String)
    (hrole : u.role = none) (hemail : u.email = none) :
    (applyProfileUpdate p u).role = p.role ∧
    (applyProfileUpdate p u).email = p.email ∧
    applyProfileUpdate p (handleProfileUpdatePayload fn ln ph) =
      { p with first_name := fn, last_name := ln, phone := some ph } ∧
    (updateProfile db uid (handleProfileUpdatePayload fn ln ph)).map
        (fun q => (q.role, q.email)) = db.map (fun q => (q.role, q.email)) := by
  refine ⟨?_, ?_, rfl, map_role_email_updateProfile db uid fn ln ph⟩
  · simp [applyProfileUpdate, hrole]
  · simp [applyProfileUpdate, hemail]

/-- Claim C6, witness: the frame property applied to the concrete
patient profile and a concrete Settings-form payload. -/
theorem updateProfile_frame_witness :
    (applyProfileUpdate samplePatientProfile
        (handleProfileUpdatePayload "New" "Name" "123")).role =
      samplePatientProfile.role ∧
    (applyProfileUpdate samplePatientProfile
        (handleProfileUpdatePayload "New" "Name" "123")).email =
      samplePatientProfile.email ∧
    applyProfileUpdate samplePatientProfile
        (handleProfileUpdatePayload "New" "Name" "123") =
      { samplePatientProfile with
          first_name := "New", last_name := "Name", phone := some "123" } ∧
    (updateProfile [samplePatientProfile] "u-1"
        (handleProfileUpdatePayload "New" "Name" "123")).map
        (fun q => (q.role, q.email)) =
      ([samplePatientProfile] : List ProfileRow).map (fun q => (q.role, q.email)) :=
  updateProfile_frame samplePatientProfile
    (handleProfileUpdatePayload "New" "Name" "123") [samplePatientProfile]
    "u-1" "New" "Name" "123" rfl rfl

/-- Claim C7, counterexample: when the remote sign-out fails, no
session-change event is emitted and the cached session, user, role and
profile are all left as they were — the local state is not cleared,
contradicting the claim. -/
theorem signOut_remote_failure_keeps_state :
    (signOutCall sampleAuthState true).1 = sampleAuthState ∧
    sampleAuthState.user = some "u-1" ∧
    sampleAuthState.userRole = some UserRole.patient :=
  ⟨rfl, rfl, rfl⟩

/-- Claim C7, amended: `signOut` never throws to its caller; on a
successful remote sign-out the null-session event clears session, user,
role and profile; the listener clears all four whenever it receives a
null session; but on a failed remote sign-out no event arrives and the
cached state is left unchanged. -/
theorem signOut_local_clearing :
    (∀ st : AuthLocalState, (signOutCall st false).1 =
      { session := none, user := none, userRole := none, profile := none }) ∧
    (∀ (st : AuthLocalState) (b : Bool), (signOutCall st b).2 = false) ∧
    (∀ st : AuthLocalState, onAuthStateChange st none =
      { session := none, user := none, userRole := none, profile := none }) ∧
    (∀ st : AuthLocalState, (signOutCall st true).1 = st) :=
  ⟨fun _ => rfl, fun _ _ => rfl, fun _ => rfl, fun _ => rfl⟩

end MedPoint
